import Mathlib

/-!
Shallow embedding of the pytron client library (stable variant
src/package/index.js, plus the earlier pywebview variant for the
auto-wait claim).  JavaScript values that the claims inspect are
modelled by an inductive JValue; global window bindings are modelled
as optional Lean functions; timers are modelled by a discrete tick
semantics in which the k-th interval callback fires at elapsed time
intervalMs * k.
-/

namespace Pytron

/-- A plugin descriptor as consumed by injectPlugin: name, optional
ui_entry (None models a missing / falsy field), optional slot. -/
structure Plugin where
  name : String
  ui_entry : Option String
  slot : Option String
deriving DecidableEq, Repr

/-- JavaScript values relevant to the claims.  The plugins constructor
models an array of plugin descriptors (the payload of the reserved
plugins state key); arrayOf any other values is not needed. -/
inductive JValue where
  | undef
  | jnull
  | bool (b : Bool)
  | num (n : Int)
  | str (s : String)
  | plugins (ps : List Plugin)
deriving DecidableEq, Repr

/-- The observable own properties of an object sitting in the global
pytron slot that the readiness detector reads: the truthiness of its
own is_ready property and of its own marker property (None models the
property being absent, in which case reading it yields undefined,
which is falsy). -/
structure PytronSlotObj where
  ready_own : Option Bool
  proxy_own : Option Bool
deriving DecidableEq, Repr

/-- The window environment: the native bridge primitive (a function of
method name and argument list), the global pytron slot, and the other
global function bindings looked up by name (window.pytron_close,
window.pytron_drag, window.pytron_<m>, window.<m>).  A binding that is
present is a function from the argument list to either a thrown value
or a result. -/
structure Window where
  nativeBridge : Option (String → List JValue → Except JValue JValue)
  pytronSlot : Option PytronSlotObj
  globals : String → Option (List JValue → Except JValue JValue)

/-- isBackendReady from src/package/index.js lines 10-23: native
bridge function, else a ready non-proxy pytron object, else one of the
known bound functions pytron_close / pytron_drag. -/
def isBackendReady (w : Window) : Bool :=
  if w.nativeBridge.isSome then true
  else if (match w.pytronSlot with
           | some e => e.ready_own.getD false && !(e.proxy_own.getD false)
           | none => false) then true
  else (w.globals "pytron_close").isSome || (w.globals "pytron_drag").isSome

/-- The readiness-relevant own properties of the pytronApi facade
object (src/package/index.js lines 59-62): is_ready = true and the
proxy marker set to true. -/
def facadeApi : PytronSlotObj := ⟨some true, some true⟩

/-- The attachment step (src/package/index.js lines 500-512): if no
global pytron exists, or the existing one does not carry a truthy
proxy marker, the facade proxy replaces it, with the own properties of
the existing object merged over the facade (Object.assign(pytronApi,
existing)).  Otherwise the slot is left untouched. -/
def attachSlot : Option PytronSlotObj → Option PytronSlotObj
  | none => some facadeApi
  | some e =>
      if e.proxy_own.getD false then some e
      else some ⟨some (e.ready_own.getD true), some (e.proxy_own.getD true)⟩

/-- The attachment step as a window transformation: only the pytron
slot changes. -/
def attachPytron (w : Window) : Window :=
  { w with pytronSlot := attachSlot w.pytronSlot }

/-- A property key read off the proxy: a string or a symbol (symbols
are identified by a number; no symbol is a key of the target). -/
inductive PropKey where
  | str (s : String)
  | sym (id : Nat)
deriving DecidableEq, Repr

/-- The string keys the pytronApi target object defines itself
(src/package/index.js lines 59-151). -/
def pytronApiKeys : List String :=
  ["state", "is_ready", "__is_proxy", "waitForBackend", "events", "on", "off",
   "log", "publish", "asset"]

/-- String keys inherited from Object.prototype, which the JavaScript
in operator also finds. -/
def objectProtoKeys : List String :=
  ["constructor", "hasOwnProperty", "isPrototypeOf", "propertyIsEnumerable",
   "toLocaleString", "toString", "valueOf", "__proto__",
   "__defineGetter__", "__defineSetter__", "__lookupGetter__", "__lookupSetter__"]

/-- The JavaScript test prop in target for the pytronApi object: true
exactly for its own string keys and the keys inherited from
Object.prototype; no symbol key is present. -/
def propInTarget : PropKey → Bool
  | .str s => s ∈ pytronApiKeys || s ∈ objectProtoKeys
  | .sym _ => false

/-- Result of reading a property off the proxy. -/
inductive GetResult where
  | localValue (p : PropKey)
  | jsUndefined
  | remoteWrapper (name : String)
deriving DecidableEq, Repr

/-- String(prop) for a prop that reached the remote-wrapper branch
(symbols never do, so their rendering is irrelevant). -/
def propString : PropKey → String
  | .str s => s
  | .sym _ => "symbol"

/-- The proxy get trap (src/package/index.js lines 268-317): local
properties first, then the symbol / then / toJSON exclusion returning
undefined, else the dynamic remote-call wrapper. -/
def proxyGet (p : PropKey) : GetResult :=
  if propInTarget p then .localValue p
  else if (match p with
           | .sym _ => true
           | .str s => s = "then" || s = "toJSON") then .jsUndefined
  else .remoteWrapper (propString p)

/-- Module-level interceptor installation state: the two global guard
flags and, for auditing reinstallation, how many times fetch has been
wrapped and how many observers have been registered. -/
structure InterceptorState where
  fetchActive : Bool
  fetchWrapCount : Nat
  observerActive : Bool
  observerCount : Nat
deriving DecidableEq, Repr

/-- The fetch interceptor block (src/package/index.js lines 155-173):
if the guard flag is unset, wrap fetch and set the flag. -/
def installFetchInterceptor (s : InterceptorState) : InterceptorState :=
  if s.fetchActive then s
  else { s with fetchActive := true, fetchWrapCount := s.fetchWrapCount + 1 }

/-- The DOM observer block (src/package/index.js lines 177-265): if
the guard flag is unset, register the observer and set the flag. -/
def installDomObserver (s : InterceptorState) : InterceptorState :=
  if s.observerActive then s
  else { s with observerActive := true, observerCount := s.observerCount + 1 }

/-- One module evaluation, restricted to its interceptor-installing
side effects (the two guarded blocks run in this order). -/
def evaluateModuleInterceptors (s : InterceptorState) : InterceptorState :=
  installDomObserver (installFetchInterceptor s)

/-- How a polling loop exits: the interval callback at tick k saw
readiness, or at tick k saw the elapsed time exceed the timeout;
pending is the fuel-exhausted marker, proved unreachable for the fuel
the embeddings use. -/
inductive PollExit where
  | readyAt (k : Nat)
  | timeoutAt (k : Nat)
  | pending
deriving DecidableEq, Repr

/-- The body of a setInterval polling loop: the callback at tick k
(elapsed time intervalMs * k) first checks readiness, then whether the
elapsed time exceeds the timeout, and otherwise leaves the interval
running for the next tick. -/
def pollLoop (intervalMs : Nat) (ready : Nat → Bool) (timeout : Nat) :
    Nat → Nat → PollExit
  | _, 0 => .pending
  | k, fuel + 1 =>
      if ready k then .readyAt k
      else if intervalMs * k > timeout then .timeoutAt k
      else pollLoop intervalMs ready timeout (k + 1) fuel

/-- Observable outcome of a wait call: whether resolve was called,
whether reject was called, whether a setInterval was started, whether
clearInterval was called, and the tick at which the loop exited. -/
structure WaitOutcome where
  resolved : Bool
  rejected : Bool
  intervalStarted : Bool
  intervalCleared : Bool
  exitTick : Nat
deriving DecidableEq, Repr

/-- waitForBackend from src/package/index.js lines 26-52: readiness
ready 0 at call time resolves immediately with no interval; otherwise
a 50ms interval polls ready at ticks 1, 2, ...; on readiness it clears
the interval and resolves, and past the timeout it clears the interval
and also resolves (never rejects). -/
def waitForBackendRun (ready : Nat → Bool) (timeout : Nat) : WaitOutcome :=
  if ready 0 then ⟨true, false, false, false, 0⟩
  else
    match pollLoop 50 ready timeout 1 (timeout / 50 + 1) with
    | .readyAt k => ⟨true, false, true, true, k⟩
    | .timeoutAt k => ⟨true, false, true, true, k⟩
    | .pending => ⟨false, false, true, false, 0⟩

/-- waitFor from src/unnamed/part_000 lines 13-28 (the earlier
variant): same shape but a 100ms interval, and past the timeout it
clears the interval and REJECTS. -/
def waitForCondRun (cond : Nat → Bool) (timeout : Nat) : WaitOutcome :=
  if cond 0 then ⟨true, false, false, false, 0⟩
  else
    match pollLoop 100 cond timeout 1 (timeout / 100 + 1) with
    | .readyAt k => ⟨true, false, true, true, k⟩
    | .timeoutAt k => ⟨false, true, true, true, k⟩
    | .pending => ⟨false, false, true, false, 0⟩

/-- Which transport strategy a remote invocation actually called. -/
inductive Transport where
  | native
  | namespacedGlobal
  | directGlobal
deriving DecidableEq, Repr

/-- The errors a remote invocation can reject with. -/
inductive CallError where
  | methodNotFound (name : String)
  | backendNotConnected
  | methodNotFoundOnBackend (name : String)
  | remote (e : JValue)
deriving DecidableEq, Repr

/-- A thrown remote value propagates unchanged to the caller. -/
def liftRemote : Except JValue JValue → Except CallError JValue
  | .ok v => .ok v
  | .error e => .error (.remote e)

/-- The legacy namespaced global name for a method. -/
def namespacedName (m : String) : String := "pytron_" ++ m

/-- Transport resolution of the stable remote-call wrapper
(src/package/index.js lines 288-314): native bridge first (its errors
are logged and rethrown), else the pytron_<m> global, else the global
named exactly m, else the method-not-found rejection.  Alongside the
outcome it records which transports were invoked, in order. -/
def dispatchRemote (w : Window) (m : String) (args : List JValue) :
    Except CallError JValue × List Transport :=
  match w.nativeBridge with
  | some f => (liftRemote (f m args), [Transport.native])
  | none =>
      match w.globals (namespacedName m) with
      | some g => (liftRemote (g args), [Transport.namespacedGlobal])
      | none =>
          match w.globals m with
          | some g => (liftRemote (g args), [Transport.directGlobal])
          | none => (.error (.methodNotFound m), [])

/-- The stable remote-call wrapper (src/package/index.js lines
282-315) over a time-invariant window: if the backend is not ready it
awaits waitForBackend(2000) (whose outcome is recorded), then resolves
and invokes the transport. -/
def remoteCall (w : Window) (m : String) (args : List JValue) :
    Option WaitOutcome × (Except CallError JValue × List Transport) :=
  ((if isBackendReady w then none
    else some (waitForBackendRun (fun _ => isBackendReady w) 2000)),
   dispatchRemote w m args)

/-- The earlier pywebview remote-call wrapper (src/unnamed/part_000
lines 81-102) over a time-invariant environment: hasApi models the
availability of window.pywebview.api and api its method table.  When
the api is absent the wrapper awaits waitFor(..., 2000) and turns its
rejection into the backend-not-connected error; otherwise it rejects
when the method is missing and else forwards the call. -/
def legacyRemoteCall (hasApi : Bool)
    (api : String → Option (List JValue → Except JValue JValue))
    (m : String) (args : List JValue) : Except CallError JValue :=
  let dispatch :=
    match api m with
    | some f => liftRemote (f args)
    | none => .error (.methodNotFoundOnBackend m)
  if hasApi then dispatch
  else
    if (waitForCondRun (fun _ => hasApi) 2000).rejected then
      .error .backendNotConnected
    else dispatch

/-- Key-indexed update on the local state mirror, modelling
state[key] = value on a JavaScript object (existing key overwritten in
place, new key appended). -/
def setKey (s : List (String × JValue)) (k : String) (v : JValue) :
    List (String × JValue) :=
  if s.any (fun p => p.1 = k) then
    s.map (fun p => if p.1 = k then (p.1, v) else p)
  else s ++ [(k, v)]

/-- Reading a key off the mirror (undefined when absent). -/
def getKey (s : List (String × JValue)) (k : String) : Option JValue :=
  (s.find? (fun p => p.1 = k)).map (fun p => p.2)

/-- Events the state-update listener dispatches, in order: the
key-scoped state:<key> event carrying only the new value, then the
generic pytron:state event carrying a snapshot of the full mirror. -/
inductive Emitted where
  | specific (key : String) (value : JValue)
  | generic (snapshot : List (String × JValue))
deriving DecidableEq, Repr

/-- The client-side mutable state the plugin machinery touches: the
local mirror, the process-wide loaded-plugin name set
(__pytron_loaded_plugins), the injected script elements in injection
order (plugin name, script src), and the mounted widget instances
(slot name, widget tag) in mount order. -/
structure ClientState where
  mirror : List (String × JValue)
  loadedPlugins : List String
  scripts : List (String × String)
  widgets : List (String × String)
deriving DecidableEq, Repr

/-- injectPlugin (src/package/index.js lines 391-412): UNCONDITIONALLY
adds the plugin name to the loaded set and appends a script element;
on script load, if the descriptor declares a slot, one widget element
is appended into every container currently tagged with that slot
(slots is the list of slot tags of the containers in the document). -/
def injectPlugin (slots : List String) (c : ClientState) (p : Plugin) :
    ClientState :=
  { c with
    loadedPlugins :=
      if p.name ∈ c.loadedPlugins then c.loadedPlugins
      else c.loadedPlugins ++ [p.name],
    scripts := c.scripts ++ [(p.name, p.ui_entry.getD "")],
    widgets := c.widgets ++
      (match p.slot with
       | some sl => (slots.filter (fun s => s = sl)).map
           (fun s => (s, p.name ++ "-widget"))
       | none => []) }

/-- The plugins-key branch of the state-update listener
(src/package/index.js lines 380-386): each descriptor with a ui_entry
whose name is not already in the loaded set is injected. -/
def loadPluginsGuarded (slots : List String) : ClientState → List Plugin → ClientState
  | c, [] => c
  | c, p :: t =>
      loadPluginsGuarded slots
        (if p.ui_entry.isSome && !(decide (p.name ∈ c.loadedPlugins)) then
           injectPlugin slots c p
         else c) t

/-- The initial-snapshot plugin loop (src/package/index.js lines
349-356): every descriptor with a ui_entry is injected, with NO
loaded-set guard. -/
def initialSnapshotPlugins (slots : List String) : ClientState → List Plugin → ClientState
  | c, [] => c
  | c, p :: t =>
      initialSnapshotPlugins slots
        (if p.ui_entry.isSome then injectPlugin slots c p else c) t

/-- The discrete pytron:plugin-loaded listener (src/package/index.js
lines 415-417): injects unconditionally. -/
def pluginLoadedEvent (slots : List String) (c : ClientState) (p : Plugin) :
    ClientState :=
  injectPlugin slots c p

/-- The pytron:state-update listener body for a payload with fields
key and value (src/package/index.js lines 366-388): set the mirror
entry, dispatch state:<key> with the value, dispatch pytron:state with
the full updated mirror, then run the guarded plugin loop when the key
is plugins and the value is an array. -/
def handleStateUpdate (slots : List String) (c : ClientState)
    (key : String) (value : JValue) : ClientState × List Emitted :=
  let c1 : ClientState := { c with mirror := setKey c.mirror key value }
  let c2 : ClientState :=
    if key = "plugins" then
      match value with
      | .plugins ps => loadPluginsGuarded slots c1 ps
      | _ => c1
    else c1
  (c2, [Emitted.specific key value, Emitted.generic c1.mirror])

/-- The payload of a state:<k> emission, used to collect the key-scoped
emissions of a run in order. -/
def specificPayload (k : String) : Emitted → Option JValue
  | .specific k2 v => if k2 = k then some v else none
  | .generic _ => none

/-- A resolved VAP asset: raw is the string of UTF-16 code units
returned by the binary bridge, mime its type. -/
structure VapAsset where
  raw : List Nat
  mime : String
deriving DecidableEq, Repr

/-- What pytronApi.asset returns: a Blob built from the byte
reinterpretation of the raw string, the legacy data reference, or
null. -/
inductive AssetResult where
  | blob (bytes : List Nat) (mime : String)
  | legacyData (v : JValue)
  | nullResult
deriving DecidableEq, Repr

/-- The legacy branch of pytronApi.asset (src/package/index.js lines
140-149): if pytron_get_asset exists, call it inside try/catch; a
truthy asset yields its data, a falsy one null, and a thrown error is
caught and yields null.  Absent transport yields null. -/
def assetLegacyBranch
    (legacy : Option (String → Except JValue (Option JValue)))
    (key : String) : AssetResult :=
  match legacy with
  | some g =>
      match g key with
      | .ok (some d) => .legacyData d
      | .ok none => .nullResult
      | .error _ => .nullResult
  | none => .nullResult

/-- pytronApi.asset (src/package/index.js lines 122-150): the binary
bridge __pytron_vap_get is tried first inside try/catch; a truthy
result is returned as a Blob (each code unit of raw written into a
Uint8Array, hence taken mod 256); a falsy result or a thrown error
falls through to the legacy branch. -/
def assetResolve
    (vap : Option (String → Except JValue (Option VapAsset)))
    (legacy : Option (String → Except JValue (Option JValue)))
    (key : String) : AssetResult :=
  match vap with
  | some f =>
      match f key with
      | .ok (some a) => .blob (a.raw.map (fun u => u % 256)) a.mime
      | .ok none => assetLegacyBranch legacy key
      | .error _ => assetLegacyBranch legacy key
  | none => assetLegacyBranch legacy key

/-- The internal event bus registry (pytronApi.events.listeners):
event name to the registered callback list, callbacks identified by
reference (modelled as numbers); None models an event name never
registered. -/
def Listeners := String → Option (List Nat)

/-- events.on (src/package/index.js lines 70-73): create the list if
absent, then push the callback. -/
def evOn (ls : Listeners) (e : String) (cb : Nat) : Listeners :=
  fun x => if x = e then some ((ls e).getD [] ++ [cb]) else ls x

/-- events.off (src/package/index.js lines 74-77): no-op when the
event was never registered, else remove every entry reference-equal to
the callback. -/
def evOff (ls : Listeners) (e : String) (cb : Nat) : Listeners :=
  match ls e with
  | none => ls
  | some l => fun x => if x = e then some (l.filter (fun c => c ≠ cb)) else ls x

/-- events.emit (src/package/index.js lines 79-85): the callbacks
invoked, in registration order (each isolated by its own try/catch, so
every one listed is invoked). -/
def evEmit (ls : Listeners) (e : String) : List Nat := (ls e).getD []

/-- The window-level subscription state behind pytronApi.on/off: every
wrapper closure ever created (wrapper id to the callback it captured),
the eventWrappers map (callback to the single remembered wrapper), the
window listener lists per event in registration order, and a fresh-id
counter (each pytronApi.on call creates a fresh wrapper closure). -/
structure WinEvents where
  wrapperCb : List (Nat × Nat)
  wrapperMap : List (Nat × Nat)
  winListeners : String → List Nat
  nextWrapper : Nat

/-- addEventListener: registers the wrapper for the event unless that
same wrapper is already registered for it. -/
def addWinListener (ls : String → List Nat) (e : String) (w : Nat) :
    String → List Nat :=
  fun x => if x = e then (if w ∈ ls e then ls e else ls e ++ [w]) else ls x

/-- removeEventListener: removes the wrapper from the event list. -/
def removeWinListener (ls : String → List Nat) (e : String) (w : Nat) :
    String → List Nat :=
  fun x => if x = e then (ls e).filter (fun y => y ≠ w) else ls x

/-- pytronApi.on (src/package/index.js lines 88-92): a fresh wrapper
closure capturing the callback is created on every call; it is
remembered in eventWrappers only if the callback has no remembered
wrapper yet; the fresh wrapper is always added as a window listener. -/
def apiOn (s : WinEvents) (e : String) (cb : Nat) : WinEvents :=
  { wrapperCb := s.wrapperCb ++ [(s.nextWrapper, cb)],
    wrapperMap :=
      if s.wrapperMap.any (fun p => p.1 = cb) then s.wrapperMap
      else s.wrapperMap ++ [(cb, s.nextWrapper)],
    winListeners := addWinListener s.winListeners e s.nextWrapper,
    nextWrapper := s.nextWrapper + 1 }

/-- pytronApi.off (src/package/index.js lines 94-100): look up the
remembered wrapper of the callback; if there is one, remove that
single wrapper from the event and delete the map entry; otherwise do
nothing. -/
def apiOff (s : WinEvents) (e : String) (cb : Nat) : WinEvents :=
  match s.wrapperMap.find? (fun p => p.1 = cb) with
  | some pr =>
      { s with
        wrapperMap := s.wrapperMap.filter (fun p => p.1 ≠ cb),
        winListeners := removeWinListener s.winListeners e pr.2 }
  | none => s

/-- Dispatching a window event: each registered wrapper runs in
registration order and invokes the callback its closure captured;
the result lists the callbacks invoked, in order. -/
def dispatchInvokes (s : WinEvents) (e : String) : List Nat :=
  (s.winListeners e).filterMap
    (fun w => (s.wrapperCb.find? (fun p => p.1 = w)).map (fun p => p.2))

/-- The empty window-level subscription state. -/
def emptyWinEvents : WinEvents :=
  { wrapperCb := [], wrapperMap := [], winListeners := fun _ => [],
    nextWrapper := 0 }

/-- A window with no backend signal at all: no native bridge, no
global pytron object, no global functions. -/
def emptyWindow : Window := ⟨none, none, fun _ => none⟩

/-- A native-bridge stub used as a concrete fixture. -/
def stubNative : String → List JValue → Except JValue JValue :=
  fun _ _ => .ok (.num 1)

/-- A global-function stub used as a concrete fixture. -/
def stubGlobal : List JValue → Except JValue JValue :=
  fun _ => .ok (.num 2)

/-- A window in which both the native bridge and every global function
are stubbed. -/
def bothStubsWindow : Window :=
  ⟨some stubNative, none, fun _ => some stubGlobal⟩

/-- A binary-bridge stub that always throws. -/
def vapThrowStub : String → Except JValue (Option VapAsset) :=
  fun _ => .error (.str "vapBoom")

/-- A legacy asset stub that returns a data reference. -/
def legacyOkStub : String → Except JValue (Option JValue) :=
  fun _ => .ok (some (.str "dataUri"))

/-- A sample plugin descriptor with a ui_entry and a slot. -/
def pluginAlpha : Plugin := ⟨"alpha", some "alpha.js", some "main"⟩

/-- A window whose only unusual feature is a pre-existing global
pytron object carrying an own falsy marker property and no is_ready
property: no native bridge and no global functions, so no readiness
signal is present before attachment. -/
def clobberWindow : Window := ⟨none, some ⟨none, some false⟩, fun _ => none⟩

/-- A fresh client state. -/
def emptyClient : ClientState := ⟨[], [], [], []⟩

end Pytron

namespace Pytron

/-- If some tick within the available fuel exceeds the timeout, the
polling loop exits (the fuel marker pending is not reached). -/
theorem pollLoop_ne_pending (intervalMs : Nat) (ready : Nat → Bool) (timeout : Nat) :
    ∀ fuel k, (∃ j, k ≤ j ∧ j < k + fuel ∧ intervalMs * j > timeout) →
      pollLoop intervalMs ready timeout k fuel ≠ .pending := by
  intro fuel
  induction fuel with
  | zero =>
      rintro k ⟨j, h1, h2, _⟩
      omega
  | succ n ih =>
      rintro k ⟨j, h1, h2, h3⟩
      unfold pollLoop
      split
      · simp
      · split
        · simp
        · rename_i hkle
          apply ih (k + 1)
          have hjk : j ≠ k := by
            intro he
            rw [he] at h3
            exact hkle h3
          exact ⟨j, by omega, by omega, h3⟩

/-- A ready exit reports a tick at which readiness held. -/
theorem pollLoop_readyAt (intervalMs : Nat) (ready : Nat → Bool) (timeout : Nat) :
    ∀ fuel k j, pollLoop intervalMs ready timeout k fuel = .readyAt j →
      ready j = true := by
  intro fuel
  induction fuel with
  | zero =>
      intro k j h
      simp [pollLoop] at h
  | succ n ih =>
      intro k j h
      unfold pollLoop at h
      split at h
      · cases h
        assumption
      · split at h
        · cases h
        · exact ih (k + 1) j h

/-- A timeout exit reports a tick past the timeout at which readiness
did not hold. -/
theorem pollLoop_timeoutAt (intervalMs : Nat) (ready : Nat → Bool) (timeout : Nat) :
    ∀ fuel k j, pollLoop intervalMs ready timeout k fuel = .timeoutAt j →
      intervalMs * j > timeout ∧ ready j = false := by
  intro fuel
  induction fuel with
  | zero =>
      intro k j h
      simp [pollLoop] at h
  | succ n ih =>
      intro k j h
      unfold pollLoop at h
      split at h
      · cases h
      · split at h
        · cases h
          rename_i hr ht
          exact ⟨ht, by simpa using hr⟩
        · exact ih (k + 1) j h

/-- The fuel the stable wait passes to its loop always suffices. -/
theorem waitForBackend_fuel (ready : Nat → Bool) (timeout : Nat) :
    pollLoop 50 ready timeout 1 (timeout / 50 + 1) ≠ .pending := by
  apply pollLoop_ne_pending
  exact ⟨timeout / 50 + 1, by omega, by omega, by omega⟩

/-- Claim C7: every symbol-typed property, and the string properties
then and toJSON, read off the proxy as undefined rather than as a
remote-call wrapper, so promise-resolution and serialization probes
trigger no remote invocation. -/
theorem C7_probe_exclusion :
    (∀ n : Nat, proxyGet (.sym n) = .jsUndefined) ∧
    proxyGet (.str "then") = .jsUndefined ∧
    proxyGet (.str "toJSON") = .jsUndefined :=
  ⟨fun _ => rfl, by decide, by decide⟩

/-- Counterexample to claim C9: in a window with no native bridge, no
pytron_close and no pytron_drag globals, and not ready before
attachment, but whose pre-existing pytron object carries an own falsy
marker property, the attachment merge copies that falsy marker over
the facade (Object.assign) while the facade keeps is_ready = true, so
isBackendReady returns true after the facade is assigned — not false
as the claim states for every such environment. -/
theorem C9_counterexample :
    clobberWindow.nativeBridge = none ∧
    clobberWindow.globals "pytron_close" = none ∧
    clobberWindow.globals "pytron_drag" = none ∧
    isBackendReady clobberWindow = false ∧
    isBackendReady (attachPytron clobberWindow) = true :=
  ⟨rfl, rfl, rfl, rfl, rfl⟩

/-- Claim C9 amended: the facade carries the marker flag set to true,
and in every environment with no native bridge and no known bound
global functions in which the global pytron slot still carries a
truthy marker after attachment (as the facade does, unless a
pre-existing object with an own falsy marker was merged over it),
isBackendReady is false. -/
theorem C9_facade_never_ready (w : Window)
    (hb : w.nativeBridge = none)
    (hc : w.globals "pytron_close" = none)
    (hd : w.globals "pytron_drag" = none)
    (hm : ∀ e, (attachPytron w).pytronSlot = some e → e.proxy_own.getD false = true) :
    facadeApi.proxy_own = some true ∧ isBackendReady (attachPytron w) = false := by
  refine ⟨rfl, ?_⟩
  obtain ⟨nb, ps, gl⟩ := w
  simp only at hb hc hd
  cases hsl : attachSlot ps with
  | none => simp [isBackendReady, attachPytron, hb, hc, hd, hsl]
  | some e =>
      have hp := hm e (by simp [attachPytron, hsl])
      simp [isBackendReady, attachPytron, hb, hc, hd, hsl, hp]

/-- Witness for C9 at the empty window. -/
theorem C9_witness :
    facadeApi.proxy_own = some true ∧
    isBackendReady (attachPytron emptyWindow) = false :=
  C9_facade_never_ready emptyWindow rfl rfl rfl
    (by
      intro e h
      simp only [attachPytron, attachSlot, emptyWindow] at h
      cases h
      rfl)

/-- Claim C10: both interceptor installations are guarded by their
global flags, so evaluating the module again changes nothing: the
combined installation step is idempotent, one evaluation wraps fetch
and registers an observer at most once, and both flags end up set. -/
theorem C10_install_once (s : InterceptorState) :
    evaluateModuleInterceptors (evaluateModuleInterceptors s) =
      evaluateModuleInterceptors s ∧
    (evaluateModuleInterceptors s).fetchWrapCount ≤ s.fetchWrapCount + 1 ∧
    (evaluateModuleInterceptors s).observerCount ≤ s.observerCount + 1 ∧
    (evaluateModuleInterceptors s).fetchActive = true ∧
    (evaluateModuleInterceptors s).observerActive = true := by
  obtain ⟨fa, fc, oa, oc⟩ := s
  cases fa <;> cases oa <;>
    simp [evaluateModuleInterceptors, installFetchInterceptor, installDomObserver]

/-- Claim C3: the stable waitForBackend never rejects; when the
readiness check already holds it resolves immediately without starting
a poll; otherwise it resolves at a tick where readiness held or the
elapsed time exceeded the timeout, and whenever an interval was
started it was cleared. -/
theorem C3_wait_never_rejects (ready : Nat → Bool) (timeout : Nat) :
    (waitForBackendRun ready timeout).resolved = true ∧
    (waitForBackendRun ready timeout).rejected = false ∧
    (ready 0 = true → waitForBackendRun ready timeout = ⟨true, false, false, false, 0⟩) ∧
    ((waitForBackendRun ready timeout).intervalStarted = true →
       (waitForBackendRun ready timeout).intervalCleared = true) ∧
    ((waitForBackendRun ready timeout).intervalStarted = true →
       ready (waitForBackendRun ready timeout).exitTick = true ∨
       50 * (waitForBackendRun ready timeout).exitTick > timeout) := by
  unfold waitForBackendRun
  cases h0 : ready 0 with
  | true => simp
  | false =>
      simp only [Bool.false_eq_true, if_false]
      cases hp : pollLoop 50 ready timeout 1 (timeout / 50 + 1) with
      | readyAt k =>
          have hr := pollLoop_readyAt 50 ready timeout (timeout / 50 + 1) 1 k hp
          simp [hr]
      | timeoutAt k =>
          have ht := pollLoop_timeoutAt 50 ready timeout (timeout / 50 + 1) 1 k hp
          simp [ht.1]
      | pending => exact absurd hp (waitForBackend_fuel ready timeout)

/-- Witness for C3: readiness that holds immediately resolves with no
polling. -/
theorem C3_witness :
    waitForBackendRun (fun _ => true) 100 = ⟨true, false, false, false, 0⟩ :=
  (C3_wait_never_rejects (fun _ => true) 100).2.2.1 rfl

/-- Claim C1: for a method name not defined locally (and not one of
the excluded probes), the proxy hands back the remote-call wrapper,
and in a window with no native bridge, no ready non-proxy pytron
object and no global functions, invoking it runs the full 2000ms
auto-wait (the interval resolves at tick 41, elapsed 2050ms) and then
rejects with the method-not-found error, invoking no transport; the
earlier pywebview variant likewise rejects, with its explicit
backend-not-connected error.  In both variants the failure is a
rejection handed to the caller, never a silent success. -/
theorem C1_not_connected_rejects (w : Window) (m : String) (args : List JValue)
    (hb : w.nativeBridge = none)
    (hs : ∀ e, w.pytronSlot = some e →
            (e.ready_own.getD false && !(e.proxy_own.getD false)) = false)
    (hg : ∀ g, w.globals g = none)
    (hl : propInTarget (.str m) = false)
    (ht1 : m ≠ "then") (ht2 : m ≠ "toJSON") :
    proxyGet (.str m) = .remoteWrapper m ∧
    remoteCall w m args =
      (some ⟨true, false, true, true, 41⟩, (.error (.methodNotFound m), [])) ∧
    (∀ api, legacyRemoteCall false api m args = .error .backendNotConnected) := by
  have hready : isBackendReady w = false := by
    unfold isBackendReady
    rw [hb, hg "pytron_close", hg "pytron_drag"]
    cases hsl : w.pytronSlot with
    | none => simp
    | some e => simp [hs e hsl]
  refine ⟨?_, ?_, ?_⟩
  · unfold proxyGet
    rw [hl]
    simp [ht1, ht2, propString]
  · unfold remoteCall dispatchRemote
    rw [hb, hg (namespacedName m), hg m, hready]
    have : waitForBackendRun (fun _ => false) 2000 = ⟨true, false, true, true, 41⟩ := by
      decide
    simp [this]
  · intro api
    unfold legacyRemoteCall
    have : (waitForCondRun (fun _ => false) 2000).rejected = true := by decide
    simp [this]

/-- Witness for C1 at the empty window with an arbitrary method name. -/
theorem C1_witness :
    proxyGet (.str "doThing") = .remoteWrapper "doThing" ∧
    remoteCall emptyWindow "doThing" [] =
      (some ⟨true, false, true, true, 41⟩,
       (.error (.methodNotFound "doThing"), [])) ∧
    (∀ api, legacyRemoteCall false api "doThing" [] =
       .error .backendNotConnected) :=
  C1_not_connected_rejects emptyWindow "doThing" [] rfl
    (by intro e h; cases h) (fun _ => rfl) (by decide) (by decide) (by decide)

/-- Claim C2: the remote-call wrapper resolves its transport in
priority order and records exactly the one transport it invoked: the
native bridge when present (whatever the globals hold), else the
namespaced pytron_<m> global, else the global named exactly m. -/
theorem C2_transport_priority (w : Window) (m : String) (args : List JValue) :
    (∀ f, w.nativeBridge = some f →
       dispatchRemote w m args = (liftRemote (f m args), [Transport.native])) ∧
    (w.nativeBridge = none → ∀ g, w.globals (namespacedName m) = some g →
       dispatchRemote w m args =
         (liftRemote (g args), [Transport.namespacedGlobal])) ∧
    (w.nativeBridge = none → w.globals (namespacedName m) = none →
       ∀ g, w.globals m = some g →
       dispatchRemote w m args = (liftRemote (g args), [Transport.directGlobal])) := by
  refine ⟨?_, ?_, ?_⟩
  · intro f hf
    unfold dispatchRemote
    rw [hf]
  · intro hb g hg
    unfold dispatchRemote
    rw [hb, hg]
  · intro hb hn g hg
    unfold dispatchRemote
    rw [hb, hn, hg]

/-- Witness for C2: with both the native bridge and matching globals
stubbed, only the native stub is invoked and its result returned. -/
theorem C2_witness :
    dispatchRemote bothStubsWindow "doThing" [] =
      (.ok (.num 1), [Transport.native]) :=
  (C2_transport_priority bothStubsWindow "doThing" []).1 stubNative rfl

/-- Writing a key then reading it back yields the written value. -/
theorem getKey_setKey (s : List (String × JValue)) (k : String) (v : JValue) :
    getKey (setKey s k v) k = some v := by
  induction s with
  | nil => simp [setKey, getKey]
  | cons p t ih =>
      by_cases hp : p.1 = k
      · simp [setKey, getKey, hp]
      · cases hany : t.any (fun q => decide (q.1 = k)) with
        | true =>
            have h1 : setKey (p :: t) k v = p :: setKey t k v := by
              simp [setKey, hp, hany]
            rw [h1]
            simpa [getKey, List.find?_cons, hp] using ih
        | false =>
            have h1 : setKey (p :: t) k v = p :: setKey t k v := by
              simp [setKey, hp, hany]
            rw [h1]
            simpa [getKey, List.find?_cons, hp] using ih

/-- The guarded plugin loop never touches the mirror. -/
theorem loadPluginsGuarded_mirror (slots : List String) :
    ∀ (ps : List Plugin) (c : ClientState),
      (loadPluginsGuarded slots c ps).mirror = c.mirror := by
  intro ps
  induction ps with
  | nil => intro c; rfl
  | cons p t ih =>
      intro c
      unfold loadPluginsGuarded
      rw [ih]
      split <;> rfl

/-- The mirror entry the state-update listener leaves behind is the
pushed value (the plugins branch only injects scripts). -/
theorem handleStateUpdate_mirror (slots : List String) (c : ClientState)
    (k : String) (v : JValue) :
    (handleStateUpdate slots c k v).1.mirror = setKey c.mirror k v := by
  by_cases hk : k = "plugins"
  · subst hk
    cases v <;> simp [handleStateUpdate, loadPluginsGuarded_mirror]
  · simp [handleStateUpdate, hk]

/-- The events the state-update listener dispatches, in order. -/
theorem handleStateUpdate_events (slots : List String) (c : ClientState)
    (k : String) (v : JValue) :
    (handleStateUpdate slots c k v).2 =
      [Emitted.specific k v, Emitted.generic (setKey c.mirror k v)] := rfl

/-- Claim C4: the state-update handler writes the mirror entry, then
dispatches the key-scoped event carrying only the new value, then the
generic event carrying the full updated mirror; pushing v1 then v2 for
the same key leaves the mirror at v2 and the key-scoped emissions of
the two runs are v1 then v2, in that order. -/
theorem C4_state_update_order (slots : List String) (c : ClientState)
    (k : String) (v1 v2 : JValue) :
    ((handleStateUpdate slots c k v1).1.mirror = setKey c.mirror k v1) ∧
    (getKey (setKey c.mirror k v1) k = some v1) ∧
    ((handleStateUpdate slots c k v1).2 =
       [Emitted.specific k v1, Emitted.generic (setKey c.mirror k v1)]) ∧
    (getKey
       (handleStateUpdate slots (handleStateUpdate slots c k v1).1 k v2).1.mirror
       k = some v2) ∧
    (((handleStateUpdate slots c k v1).2 ++
        (handleStateUpdate slots (handleStateUpdate slots c k v1).1 k v2).2).filterMap
       (specificPayload k) = [v1, v2]) := by
  refine ⟨handleStateUpdate_mirror slots c k v1, getKey_setKey _ k v1,
    handleStateUpdate_events slots c k v1, ?_, ?_⟩
  · rw [handleStateUpdate_mirror]
    exact getKey_setKey _ k v2
  · rw [handleStateUpdate_events, handleStateUpdate_events]
    simp [specificPayload]

/-- Claim C5: when the binary bridge throws, asset falls back to the
legacy call and returns its result; when both throw, or neither
transport exists, asset returns null; the result type carries no
exception, so nothing propagates to the caller. -/
theorem C5_asset_fallback
    (vapf : String → Except JValue (Option VapAsset))
    (legacyg : String → Except JValue (Option JValue))
    (key : String) (e1 e2 : JValue) (d : JValue) :
    (vapf key = .error e1 → legacyg key = .ok (some d) →
       assetResolve (some vapf) (some legacyg) key = .legacyData d) ∧
    (vapf key = .error e1 → legacyg key = .error e2 →
       assetResolve (some vapf) (some legacyg) key = .nullResult) ∧
    assetResolve none none key = .nullResult := by
  refine ⟨?_, ?_, rfl⟩ <;>
    · intro h1 h2
      simp [assetResolve, assetLegacyBranch, h1, h2]

/-- Witness for C5: a throwing binary bridge with a succeeding legacy
call yields the legacy data. -/
theorem C5_witness :
    assetResolve (some vapThrowStub) (some legacyOkStub) "icon" =
      .legacyData (.str "dataUri") :=
  (C5_asset_fallback vapThrowStub legacyOkStub "icon"
      (.str "vapBoom") (.str "vapBoom") (.str "dataUri")).1 rfl rfl

/-- injectPlugin records the plugin name in the loaded set. -/
theorem injectPlugin_name_mem (slots : List String) (c : ClientState) (p : Plugin) :
    p.name ∈ (injectPlugin slots c p).loadedPlugins := by
  by_cases h : p.name ∈ c.loadedPlugins <;> simp [injectPlugin, h]

/-- injectPlugin never removes a name from the loaded set. -/
theorem injectPlugin_loaded_mono (slots : List String) (c : ClientState)
    (p : Plugin) (x : String) (hx : x ∈ c.loadedPlugins) :
    x ∈ (injectPlugin slots c p).loadedPlugins := by
  by_cases h : p.name ∈ c.loadedPlugins <;> simp [injectPlugin, h, hx]

/-- The guarded plugin loop never removes a name from the loaded set. -/
theorem loadPluginsGuarded_loaded_mono (slots : List String) :
    ∀ (ps : List Plugin) (c : ClientState) (x : String),
      x ∈ c.loadedPlugins → x ∈ (loadPluginsGuarded slots c ps).loadedPlugins := by
  intro ps
  induction ps with
  | nil => intro c x hx; exact hx
  | cons p t ih =>
      intro c x hx
      unfold loadPluginsGuarded
      split
      · exact ih _ x (injectPlugin_loaded_mono slots c p x hx)
      · exact ih _ x hx

/-- After the guarded loop, every listed plugin with a ui_entry is in
the loaded set. -/
theorem loadPluginsGuarded_covers (slots : List String) :
    ∀ (ps : List Plugin) (c : ClientState) (p : Plugin), p ∈ ps →
      p.ui_entry.isSome = true →
      p.name ∈ (loadPluginsGuarded slots c ps).loadedPlugins := by
  intro ps
  induction ps with
  | nil => intro c p hp; cases hp
  | cons q t ih =>
      intro c p hp hu
      rcases List.mem_cons.mp hp with he | ht
      · subst he
        unfold loadPluginsGuarded
        split
        · exact loadPluginsGuarded_loaded_mono slots t _ p.name
            (injectPlugin_name_mem slots c p)
        · rename_i hguard
          rw [hu] at hguard
          have hm : p.name ∈ c.loadedPlugins := by simpa using hguard
          exact loadPluginsGuarded_loaded_mono slots t _ p.name hm
      · unfold loadPluginsGuarded
        split
        · exact ih _ p ht hu
        · exact ih _ p ht hu

/-- When every listed plugin with a ui_entry is already loaded, the
guarded loop does nothing at all. -/
theorem loadPluginsGuarded_noop (slots : List String) :
    ∀ (ps : List Plugin) (c : ClientState),
      (∀ p ∈ ps, p.ui_entry.isSome = true → p.name ∈ c.loadedPlugins) →
      loadPluginsGuarded slots c ps = c := by
  intro ps
  induction ps with
  | nil => intro c _; rfl
  | cons q t ih =>
      intro c h
      unfold loadPluginsGuarded
      have hguard : (q.ui_entry.isSome && !(decide (q.name ∈ c.loadedPlugins))) = false := by
        cases hq : q.ui_entry.isSome with
        | false => simp
        | true => simp [h q (List.mem_cons_self q t) hq]
      rw [hguard]
      simp only [if_false, Bool.false_eq_true]
      exact ih c (fun p hp hu => h p (List.mem_cons_of_mem q hp) hu)

/-- Replacing the mirror commutes with the guarded plugin loop (the
loop reads and writes everything except the mirror). -/
theorem loadPluginsGuarded_setMirror (slots : List String) :
    ∀ (ps : List Plugin) (c : ClientState) (m : List (String × JValue)),
      loadPluginsGuarded slots { c with mirror := m } ps =
        { loadPluginsGuarded slots c ps with mirror := m } := by
  intro ps
  induction ps with
  | nil => intro c m; rfl
  | cons q t ih =>
      intro c m
      unfold loadPluginsGuarded
      dsimp only
      split
      · rw [show injectPlugin slots { c with mirror := m } q =
              { injectPlugin slots c q with mirror := m } from rfl]
        exact ih _ m
      · exact ih _ m

/-- Counterexample to claim C6: two discrete plugin-load events for
the same descriptor inject two script elements and mount two widget
instances in the single matching slot, not one. -/
theorem C6_counterexample :
    (pluginLoadedEvent ["main"]
       (pluginLoadedEvent ["main"] emptyClient pluginAlpha) pluginAlpha).scripts.length = 2 ∧
    (pluginLoadedEvent ["main"]
       (pluginLoadedEvent ["main"] emptyClient pluginAlpha) pluginAlpha).widgets.length = 2 ∧
    ¬ (pluginLoadedEvent ["main"]
         (pluginLoadedEvent ["main"] emptyClient pluginAlpha) pluginAlpha).scripts.length = 1 := by
  decide

/-- Claim C6 amended: only the plugins state-update path is guarded by
the loaded set, and for it loading is idempotent: running the guarded
loop a second time over the same descriptor list changes nothing, and
on the listener level a re-push of the plugins key injects no further
script. -/
theorem C6_guarded_path_idempotent (slots : List String) (c : ClientState)
    (ps : List Plugin) :
    loadPluginsGuarded slots (loadPluginsGuarded slots c ps) ps =
      loadPluginsGuarded slots c ps ∧
    (handleStateUpdate slots
        (handleStateUpdate slots c "plugins" (.plugins ps)).1
        "plugins" (.plugins ps)).1.scripts =
      (handleStateUpdate slots c "plugins" (.plugins ps)).1.scripts := by
  have hid : ∀ c2 : ClientState,
      loadPluginsGuarded slots (loadPluginsGuarded slots c2 ps) ps =
        loadPluginsGuarded slots c2 ps :=
    fun c2 => loadPluginsGuarded_noop slots ps _
      (fun p hp hu => loadPluginsGuarded_covers slots ps c2 p hp hu)
  refine ⟨hid c, ?_⟩
  show (loadPluginsGuarded slots
      { (handleStateUpdate slots c "plugins" (.plugins ps)).1 with
        mirror := setKey (handleStateUpdate slots c "plugins" (.plugins ps)).1.mirror
          "plugins" (.plugins ps) } ps).scripts = _
  rw [loadPluginsGuarded_setMirror]
  show (loadPluginsGuarded slots
      (loadPluginsGuarded slots { c with
        mirror := setKey c.mirror "plugins" (.plugins ps) } ps) ps).scripts = _
  rw [hid]
  rfl

/-- Counterexample to claim C8: on the window-level on/off, after
subscribing the same callback twice for the same event (it is indeed
invoked twice) a single unsubscribe removes only the remembered first
wrapper, so a subsequent dispatch still invokes the callback once. -/
theorem C8_counterexample :
    dispatchInvokes (apiOn (apiOn emptyWinEvents "evt" 7) "evt" 7) "evt" = [7, 7] ∧
    dispatchInvokes
      (apiOff (apiOn (apiOn emptyWinEvents "evt" 7) "evt" 7) "evt" 7) "evt" = [7] ∧
    7 ∈ dispatchInvokes
      (apiOff (apiOn (apiOn emptyWinEvents "evt" 7) "evt" 7) "evt" 7) "evt" := by
  refine ⟨rfl, rfl, ?_⟩
  rw [show dispatchInvokes
      (apiOff (apiOn (apiOn emptyWinEvents "evt" 7) "evt" 7) "evt" 7) "evt" = [7]
    from rfl]
  exact List.mem_singleton.mpr rfl

/-- Claim C8 amended: on the internal event bus the claim holds in
full (double subscription stores the callback twice and emit invokes
it twice; off removes every registration of the callback by reference
identity, so afterwards it is not invoked while other callbacks keep
their invocation counts).  On the window-level on/off a double
subscription is invoked twice, and off after a single subscription
removes the callback; the double-subscribe-then-off case fails there
(see the counterexample). -/
theorem C8_event_bus_semantics (ls : Listeners) (e : String) (cb d : Nat)
    (hne : d ≠ cb) :
    evEmit (evOn (evOn ls e cb) e cb) e = evEmit ls e ++ [cb, cb] ∧
    cb ∉ evEmit (evOff ls e cb) e ∧
    List.count d (evEmit (evOff ls e cb) e) = List.count d (evEmit ls e) ∧
    dispatchInvokes (apiOn (apiOn emptyWinEvents e cb) e cb) e = [cb, cb] ∧
    dispatchInvokes (apiOff (apiOn emptyWinEvents e cb) e cb) e = [] := by
  refine ⟨?_, ?_, ?_, ?_, ?_⟩
  · simp [evOn, evEmit]
  · cases hl : ls e with
    | none => simp [evOff, evEmit, hl]
    | some l => simp [evOff, evEmit, hl]
  · cases hl : ls e with
    | none => simp [evOff, hl]
    | some l =>
        simp only [evOff, hl, evEmit, Option.getD_some, if_pos]
        exact List.count_filter (by simpa using hne)
  · simp [apiOn, emptyWinEvents, addWinListener, dispatchInvokes, List.find?]
  · simp [apiOn, apiOff, emptyWinEvents, addWinListener, removeWinListener,
      dispatchInvokes, List.find?]

/-- Witness for C8 amended at a concrete bus and callbacks. -/
theorem C8_witness :
    dispatchInvokes (apiOn (apiOn emptyWinEvents "evt" 3) "evt" 3) "evt" = [3, 3] :=
  (C8_event_bus_semantics (fun _ => none) "evt" 3 4 (by decide)).2.2.2.1

end Pytron
